import Mathlib

/-!
Verification of the zustand state-management playground.

The repository contains variant zustand stores:
  * the persisted + devtools store of src/types/store.ts (useAppStore),
    whose state carries count, comments, loading, error, isHydrated;
  * the sliced store of src/store/useStore.ts (useStore), whose state
    carries count, example, comments, loading, error (no isHydrated);
  * the HydrationBoundary component of src/components/HydrationBoundary.tsx.

We embed the stores shallowly: zustand's set-with-partial-object is
modelled as a record update (fields not mentioned are unchanged), and the
asynchronous fetchComments action is modelled as a function of the prior
state and the outcome of the single network call it performs.
-/

/-- A comment record as it arrives from the network, before any validation:
each of the five declared Comment fields may be present or absent, and the
record may carry extra fields (name/value pairs).  The source stores the
parsed JSON array as-is, so the store's comment list holds raw records. -/
structure RawComment where
  postId : Option Int
  id : Option Int
  name : Option String
  email : Option String
  body : Option String
  extra : List (String × String)
deriving DecidableEq, Repr

/-- A raw record is a complete Comment when every required field of the
Comment interface (src/types/store.ts) is present. -/
def RawComment.isComplete (r : RawComment) : Bool :=
  r.postId.isSome && r.id.isSome && r.name.isSome && r.email.isSome && r.body.isSome

/-- State of the persisted store useAppStore (src/types/store.ts):
count, comments, loading, error, isHydrated. -/
structure AppState where
  count : Int
  comments : List RawComment
  loading : Bool
  error : Option String
  isHydrated : Bool
deriving DecidableEq, Repr

/-- Initial state of useAppStore: count 0, comments [], loading false,
error null, isHydrated false. -/
def initialAppState : AppState :=
  { count := 0, comments := [], loading := false, error := none, isHydrated := false }

/-- Outcome of the single network call made by fetchComments: the response
resolved with status ok and a parsed array of records, or resolved with a
non-success status, or the call (or body parsing) rejected.  For a
rejection, some msg means an Error value with that message was thrown and
none means a non-Error value was thrown. -/
inductive FetchOutcome
  | success (data : List RawComment)
  | httpError (status : Nat)
  | networkError (msg : Option String)
deriving DecidableEq, Repr

/-- An outcome that takes the catch branch of fetchComments. -/
def FetchOutcome.isFailure : FetchOutcome → Bool
  | .success _ => false
  | .httpError _ => true
  | .networkError _ => true

namespace AppStore

/-- increment: set(state => (count: state.count + 1)). -/
def increment (s : AppState) : AppState := { s with count := s.count + 1 }

/-- decrement: set(state => (count: state.count - 1)). -/
def decrement (s : AppState) : AppState := { s with count := s.count - 1 }

/-- incrementBy: set(state => (count: state.count + amount)). -/
def incrementBy (s : AppState) (amount : Int) : AppState :=
  { s with count := s.count + amount }

/-- reset (devtools action label resetCounter): set(count: 0). -/
def reset (s : AppState) : AppState := { s with count := 0 }

/-- setHydrated: set(isHydrated: true). -/
def setHydrated (s : AppState) : AppState := { s with isHydrated := true }

/-- clearComments: set(comments: [], error: null). -/
def clearComments (s : AppState) : AppState := { s with comments := [], error := none }

/-- resetAll: set(count: 0, comments: [], loading: false, error: null).
The partial set object does not mention isHydrated, so it is unchanged. -/
def resetAll (s : AppState) : AppState :=
  { s with count := 0, comments := [], loading := false, error := none }

/-- Error message stored by the catch branch of useAppStore.fetchComments:
a non-ok response throws Error with message Failed to fetch comments, and
the catch stores error.message when the thrown value is an Error, else the
fallback text An error occurred. -/
def failureMessage : FetchOutcome → String
  | .httpError _ => "Failed to fetch comments"
  | .networkError (some m) => m
  | .networkError none => "An error occurred"
  | .success _ => ""

/-- fetchComments of useAppStore (src/types/store.ts).  The action first
applies set(loading: true, error: null), then performs the fetch; on a
usable response it applies set(comments: data, loading: false,
error: null); otherwise the catch applies set(error: message,
loading: false).  There is no guard: the network request is always issued,
recorded by the Boolean first component. -/
def fetchComments (s : AppState) (o : FetchOutcome) : Bool × AppState :=
  let s1 : AppState := { s with loading := true, error := none }
  match o with
  | .success data =>
      (true, { s1 with comments := data, loading := false, error := none })
  | .httpError _ =>
      (true, { s1 with error := some (failureMessage o), loading := false })
  | .networkError _ =>
      (true, { s1 with error := some (failureMessage o), loading := false })

end AppStore

/-- A counter action of either store variant, as invoked by the UI. -/
inductive CounterOp
  | increment
  | decrement
  | incrementBy (n : Int)
  | reset
deriving DecidableEq, Repr

/-- Dispatch of a counter action on the persisted store. -/
def AppStore.applyCounterOp (s : AppState) : CounterOp → AppState
  | .increment => AppStore.increment s
  | .decrement => AppStore.decrement s
  | .incrementBy n => AppStore.incrementBy s n
  | .reset => AppStore.reset s

/-- Modelled from the spec: the arithmetic effect of each counter action
(+1, -1, +n, set-to-0) on a bare integer, in the spec's own words,
independent of the store embedding. -/
def counterEffect (c : Int) : CounterOp → Int
  | .increment => c + 1
  | .decrement => c - 1
  | .incrementBy n => c + n
  | .reset => 0

/-- State of the sliced store useStore (src/store/useStore.ts): the
CounterSlice fields count, example, increment, decrement, incrementBy,
extractValues, reset combined with the CommentsSlice fields comments,
loading, error, fetchComments.  The source field named example is spelled
exampleStr here because example is a Lean keyword. -/
structure SlicedState where
  count : Int
  exampleStr : String
  comments : List RawComment
  loading : Bool
  error : Option String
deriving DecidableEq, Repr

/-- Initial state of useStore: count 0, example the string example,
comments [], loading false, error null. -/
def initialSlicedState : SlicedState :=
  { count := 0, exampleStr := "example", comments := [], loading := false, error := none }

namespace SlicedStore

/-- increment of createCounterSlice. -/
def increment (s : SlicedState) : SlicedState := { s with count := s.count + 1 }

/-- decrement of createCounterSlice. -/
def decrement (s : SlicedState) : SlicedState := { s with count := s.count - 1 }

/-- incrementBy of createCounterSlice. -/
def incrementBy (s : SlicedState) (value : Int) : SlicedState :=
  { s with count := s.count + value }

/-- reset of createCounterSlice. -/
def reset (s : SlicedState) : SlicedState := { s with count := 0 }

/-- Error message stored by the catch branch of the sliced fetchComments:
a non-ok response throws Error with message HTTP followed by the status,
and the catch stores e?.message ?? the fallback text Failed to load. -/
def failureMessage : FetchOutcome → String
  | .httpError status => "HTTP " ++ toString status
  | .networkError (some m) => m
  | .networkError none => "Failed to load"
  | .success _ => ""

/-- fetchComments of createCommentsSlice (src/store/useStore.ts).  Guard:
if get().comments.length > 0 the action returns at once, issuing no
request and touching no field.  Otherwise it applies set(loading: true,
error: null), performs the fetch, and on success applies set(comments:
data, loading: false) while the catch applies set(error: message,
loading: false).  The Boolean first component records whether the network
request was issued. -/
def fetchComments (s : SlicedState) (o : FetchOutcome) : Bool × SlicedState :=
  if s.comments.length > 0 then (false, s)
  else
    let s1 : SlicedState := { s with loading := true, error := none }
    match o with
    | .success data =>
        (true, { s1 with comments := data, loading := false })
    | .httpError _ =>
        (true, { s1 with error := some (failureMessage o), loading := false })
    | .networkError _ =>
        (true, { s1 with error := some (failureMessage o), loading := false })

end SlicedStore

/-- The persisted projection of useAppStore (interface PersistedState of
src/types/store.ts): exactly the fields comments and count. -/
structure PersistedState where
  comments : List RawComment
  count : Int
deriving DecidableEq, Repr

/-- partialize of useAppStore's persist options: state mapped to the
object with fields comments := state.comments and count := state.count. -/
def partialize (state : AppState) : PersistedState :=
  { comments := state.comments, count := state.count }

/-- partialize of the sliced store's persist options: only comments is
kept across reloads. -/
structure SlicedPersisted where
  comments : List RawComment
deriving DecidableEq, Repr

/-- partialize of useStore (src/store/useStore.ts): s mapped to the object
with the single field comments := s.comments. -/
def slicedPartialize (s : SlicedState) : SlicedPersisted :=
  { comments := s.comments }

/-- Content found in the durable storage slot at startup: the key may be
absent, may hold text that does not parse, or may hold a parsed snapshot
tagged with a schema version. -/
inductive SlotContent
  | absent
  | malformed (text : String)
  | valid (snapshot : PersistedState) (version : Nat)
deriving DecidableEq, Repr

/-- An effect a rehydration callback performs on the store: nothing, or a
call of the setHydrated action. -/
inductive StoreEffect
  | noop
  | doSetHydrated
deriving DecidableEq, Repr

/-- Application of a callback's store effect. -/
def applyEffect : StoreEffect → AppState → AppState
  | .noop, s => s
  | .doSetHydrated, s => AppStore.setHydrated s

/-- Value returned by a rehydration callback: undefined, or a function
value (the source's inner completion handler is returned, not invoked). -/
inductive CbRet
  | undef
  | func
deriving DecidableEq, Repr

/-- The inner completion handler written inside onRehydrateStorage of
src/types/store.ts: given (state, error) it logs Hydration failed when an
error is present (no store effect), and otherwise logs Hydration completed
and calls state?.setHydrated() (a noop when state is undefined). -/
def onRehydrateInner (state : Option AppState) (error : Option String) :
    StoreEffect × CbRet :=
  match error, state with
  | some _, _ => (.noop, .undef)
  | none, some _ => (.doSetHydrated, .undef)
  | none, none => (.noop, .undef)

/-- The post-rehydration callback the persist middleware actually obtains
from useAppStore's options: onRehydrateStorage is written with an extra
arrow, () => (state) => ..., so evaluating onRehydrateStorage(get()) at
hydration start yields the function (state) => console.log of Hydration
started; return innerHandler.  When the middleware later invokes that
function with (state, error), its body only logs and returns the inner
handler as a value: it performs no store effect, and the second argument
error is not even a parameter of the function. -/
def onRehydratePost (_state : Option AppState) (_error : Option String) :
    StoreEffect × CbRet :=
  (.noop, .func)

/-- Modelled from the spec: the persist middleware's restore cycle (the
zustand middleware itself is not among this repository's sources; spec
section 4.2 describes it).  At startup it reads the durable slot: if the
key is absent it keeps the initial values; if the text is malformed the
deserialization error is caught and the initial values are kept, nothing
is thrown to the caller; if a snapshot parses, its fields are merged over
the initial state.  It then invokes the configured post-rehydration
callback with the resulting state (or with the error) and applies to the
store whatever effect that callback performs.  The callback's return
value is discarded. -/
def restoreCycle (slot : SlotContent) (init : AppState) : AppState :=
  match slot with
  | .absent => applyEffect (onRehydratePost (some init) none).1 init
  | .malformed _ =>
      applyEffect (onRehydratePost none (some "SyntaxError: unexpected token")).1 init
  | .valid snapshot _ =>
      let merged : AppState :=
        { init with comments := snapshot.comments, count := snapshot.count }
      applyEffect (onRehydratePost (some merged) none).1 merged

/-- Local state of the HydrationBoundary component
(src/components/HydrationBoundary.tsx): the useState flag named isHydrated
there, initialised to false. -/
structure GateState where
  isHydrated : Bool
deriving DecidableEq, Repr

namespace HydrationBoundary

/-- Gate state at construction: useState(false). -/
def init : GateState := { isHydrated := false }

/-- The scheduling tick of the component's effect: checkHydration awaits a
timeout and then calls setIsHydrated(true). -/
def tick (_ : GateState) : GateState := { isHydrated := true }

/-- What the component renders. -/
inductive RenderOut
  | fallback
  | children
deriving DecidableEq, Repr

/-- The component's render: if (!isHydrated || !storeHydrated) the
fallback is returned, else the children. -/
def render (g : GateState) (storeHydrated : Bool) : RenderOut :=
  if !g.isHydrated || !storeHydrated then .fallback else .children

/-- The ready signal: the gate shows the real content. -/
def ready (g : GateState) (storeHydrated : Bool) : Bool :=
  render g storeHydrated == .children

end HydrationBoundary

/-- Dispatch of a counter action on the sliced store. -/
def SlicedStore.applyCounterOp (s : SlicedState) : CounterOp → SlicedState
  | .increment => SlicedStore.increment s
  | .decrement => SlicedStore.decrement s
  | .incrementBy n => SlicedStore.incrementBy s n
  | .reset => SlicedStore.reset s

/-- A complete sample comment record (all required fields present). -/
def sampleComment : RawComment :=
  { postId := some 1, id := some 1, name := some "alice",
    email := some "alice@example.com", body := some "hello", extra := [] }

/-- A record missing every required Comment field, carrying one extra
field, as a parsed response body may contain. -/
def incompleteComment : RawComment :=
  { postId := none, id := none, name := none, email := none, body := none,
    extra := [("score", "10")] }

/-- A persisted-store state with a fetch already in flight. -/
def loadingAppState : AppState :=
  { count := 0, comments := [], loading := true, error := none, isHydrated := false }

/-- A sliced-store state with a fetch already in flight and no comments. -/
def loadingSlicedState : SlicedState :=
  { count := 0, exampleStr := "example", comments := [], loading := true, error := none }

/-- A sliced-store state whose comments are already populated. -/
def populatedSlicedState : SlicedState :=
  { count := 5, exampleStr := "example", comments := [sampleComment],
    loading := false, error := none }

/-- Helper: the counter of the persisted store evolves exactly as the
arithmetic effects, from any starting state. -/
theorem appStore_counter_foldl (ops : List CounterOp) (s : AppState) :
    (ops.foldl AppStore.applyCounterOp s).count = ops.foldl counterEffect s.count := by
  induction ops generalizing s with
  | nil => rfl
  | cons op rest ih =>
    have h : (AppStore.applyCounterOp s op).count = counterEffect s.count op := by
      cases op <;> rfl
    simp only [List.foldl_cons, ih, h]

/-- Helper: the counter of the sliced store evolves exactly as the
arithmetic effects, from any starting state. -/
theorem slicedStore_counter_foldl (ops : List CounterOp) (s : SlicedState) :
    (ops.foldl SlicedStore.applyCounterOp s).count = ops.foldl counterEffect s.count := by
  induction ops generalizing s with
  | nil => rfl
  | cons op rest ih =>
    have h : (SlicedStore.applyCounterOp s op).count = counterEffect s.count op := by
      cases op <;> rfl
    simp only [List.foldl_cons, ih, h]

/-- C5: for every finite sequence of increment, decrement, incrementBy(n)
and resetCounter calls starting from count = 0, the final count equals the
arithmetic result of applying each effect (+1, -1, +n, set-to-0) in call
order, in both store variants.  Subscriber notification is not part of the
state transition, so the result is independent of it. -/
theorem counter_sequences_match_arithmetic (ops : List CounterOp) :
    (ops.foldl AppStore.applyCounterOp initialAppState).count = ops.foldl counterEffect 0 ∧
    (ops.foldl SlicedStore.applyCounterOp initialSlicedState).count = ops.foldl counterEffect 0 :=
  ⟨appStore_counter_foldl ops initialAppState, slicedStore_counter_foldl ops initialSlicedState⟩

/-- C8: for every prior state, resetAll yields count = 0, comments = [],
loading = false, error = null, and leaves isHydrated at its prior value. -/
theorem resetAll_resets_all_but_hydration (s : AppState) :
    (AppStore.resetAll s).count = 0 ∧
    (AppStore.resetAll s).comments = [] ∧
    (AppStore.resetAll s).loading = false ∧
    (AppStore.resetAll s).error = none ∧
    (AppStore.resetAll s).isHydrated = s.isHydrated :=
  ⟨rfl, rfl, rfl, rfl, rfl⟩

/-- C7: for every container state, the persisted projection carries exactly
the fields count and comments: it reproduces the state's count and
comments, and it does not depend on loading, error or isHydrated (two
states agreeing on count and comments yield the same snapshot).  The
snapshot type PersistedState declares no other field. -/
theorem partialize_keeps_exactly_count_and_comments (c : Int) (cm : List RawComment)
    (l l' : Bool) (e e' : Option String) (h h' : Bool) :
    (partialize ⟨c, cm, l, e, h⟩).count = c ∧
    (partialize ⟨c, cm, l, e, h⟩).comments = cm ∧
    partialize ⟨c, cm, l, e, h⟩ = partialize ⟨c, cm, l', e', h'⟩ :=
  ⟨rfl, rfl, rfl⟩

/-- C6: when fetchComments settles on the success path the state holds the
fetched sequence in response order, loading = false and error = null, and
the stored list has the length of the response; the sliced variant behaves
the same whenever its guard lets the fetch run (comments empty before the
call). -/
theorem fetch_success_stores_response :
    (∀ (s : AppState) (data : List RawComment),
      (AppStore.fetchComments s (.success data)).2.comments = data ∧
      (AppStore.fetchComments s (.success data)).2.loading = false ∧
      (AppStore.fetchComments s (.success data)).2.error = none ∧
      (AppStore.fetchComments s (.success data)).2.comments.length = data.length) ∧
    (∀ (t : SlicedState) (data : List RawComment), t.comments = [] →
      (SlicedStore.fetchComments t (.success data)).2.comments = data ∧
      (SlicedStore.fetchComments t (.success data)).2.loading = false ∧
      (SlicedStore.fetchComments t (.success data)).2.error = none) := by
  constructor
  · intro s data
    exact ⟨rfl, rfl, rfl, rfl⟩
  · intro t data ht
    simp [SlicedStore.fetchComments, ht]

/-- Witness for C6: a fetch resolving with 10 records yields a comment
list of length 10 with error null. -/
theorem fetch_success_stores_response_witness :
    (AppStore.fetchComments initialAppState
      (.success (List.replicate 10 sampleComment))).2.comments.length = 10 ∧
    (AppStore.fetchComments initialAppState
      (.success (List.replicate 10 sampleComment))).2.error = none ∧
    (SlicedStore.fetchComments initialSlicedState
      (.success (List.replicate 10 sampleComment))).2.comments
      = List.replicate 10 sampleComment := by
  have h1 := fetch_success_stores_response.1 initialAppState (List.replicate 10 sampleComment)
  have h2 := fetch_success_stores_response.2 initialSlicedState (List.replicate 10 sampleComment) rfl
  exact ⟨by simpa using h1.2.2.2, h1.2.2.1, h2.1⟩

/-- C2: whenever fetchComments settles on the failure path (network
rejection or non-success status), the state has loading = false, error
equal to the failure message, and comments exactly as before the call; the
sliced variant behaves the same whenever its guard lets the fetch run. -/
theorem fetch_failure_preserves_comments :
    (∀ (s : AppState) (o : FetchOutcome), o.isFailure = true →
      (AppStore.fetchComments s o).2.loading = false ∧
      (AppStore.fetchComments s o).2.error = some (AppStore.failureMessage o) ∧
      (AppStore.fetchComments s o).2.comments = s.comments) ∧
    (∀ (t : SlicedState) (o : FetchOutcome), t.comments = [] → o.isFailure = true →
      (SlicedStore.fetchComments t o).2.loading = false ∧
      (SlicedStore.fetchComments t o).2.error = some (SlicedStore.failureMessage o) ∧
      (SlicedStore.fetchComments t o).2.comments = t.comments) := by
  constructor
  · intro s o ho
    cases o with
    | success data => simp [FetchOutcome.isFailure] at ho
    | httpError status => exact ⟨rfl, rfl, rfl⟩
    | networkError msg => exact ⟨rfl, rfl, rfl⟩
  · intro t o ht ho
    cases o with
    | success data => simp [FetchOutcome.isFailure] at ho
    | httpError status => simp [SlicedStore.fetchComments, ht]
    | networkError msg => simp [SlicedStore.fetchComments, ht]

/-- Witness for C2: a rejection carrying the message Network down leaves
the stored error at that message in the persisted store, and the sliced
store's fallback text Failed to load is stored for a rejection without a
message; comments stay at their prior (empty) value in both. -/
theorem fetch_failure_preserves_comments_witness :
    (AppStore.fetchComments initialAppState (.networkError (some "Network down"))).2.error
      = some "Network down" ∧
    (AppStore.fetchComments initialAppState (.networkError (some "Network down"))).2.comments
      = initialAppState.comments ∧
    (SlicedStore.fetchComments initialSlicedState (.networkError none)).2.error
      = some "Failed to load" := by
  have h1 := fetch_failure_preserves_comments.1 initialAppState (.networkError (some "Network down")) rfl
  have h2 := fetch_failure_preserves_comments.2 initialSlicedState (.networkError none) rfl rfl
  exact ⟨h1.2.1, h1.2.2, h2.2.1⟩

/-- C3 counterexample: with loading already true (and comments empty), a
fetchComments call is not a no-op in either variant: the sliced store
issues the network request (first component true) and mutates loading, and
the persisted store issues the request as well, so a second fetch can be
in flight. -/
theorem fetch_while_loading_not_skipped :
    (SlicedStore.fetchComments loadingSlicedState (.success [sampleComment])).1 = true ∧
    (SlicedStore.fetchComments loadingSlicedState (.success [sampleComment])).2 ≠ loadingSlicedState ∧
    (AppStore.fetchComments loadingAppState (.success [sampleComment])).1 = true := by
  refine ⟨rfl, ?_, rfl⟩
  decide

/-- C3 amended: no variant guards on loading: the persisted store issues
the network request on every call, and the sliced store skips exactly when
comments is non-empty, so a call while loading is true with comments empty
starts a second concurrent fetch. -/
theorem fetch_guard_ignores_loading :
    (∀ (s : AppState) (o : FetchOutcome), (AppStore.fetchComments s o).1 = true) ∧
    (∀ (t : SlicedState) (o : FetchOutcome),
      (SlicedStore.fetchComments t o).1 = t.comments.isEmpty) := by
  constructor
  · intro s o
    cases o <;> rfl
  · intro t o
    cases ht : t.comments with
    | nil => cases o <;> simp [SlicedStore.fetchComments, ht]
    | cons c cs => simp [SlicedStore.fetchComments, ht]

/-- C10: in the sliced store, whenever comments is non-empty, calling
fetchComments returns immediately: no network request is issued and the
whole state (count, comments, loading, error) is returned unchanged,
whatever the network would have answered. -/
theorem sliced_fetch_skips_when_populated (t : SlicedState) (o : FetchOutcome)
    (h : t.comments ≠ []) :
    SlicedStore.fetchComments t o = (false, t) := by
  cases ht : t.comments with
  | nil => exact absurd ht h
  | cons c cs => simp [SlicedStore.fetchComments, ht]

/-- Witness for C10: with one persisted comment in the state, a fetch call
is skipped entirely. -/
theorem sliced_fetch_skips_when_populated_witness :
    SlicedStore.fetchComments populatedSlicedState (.success [incompleteComment])
      = (false, populatedSlicedState) :=
  sliced_fetch_skips_when_populated populatedSlicedState (.success [incompleteComment])
    (by decide)

/-- C9 counterexample: a response whose single record lacks every required
Comment field is stored on the success path: error stays null and comments
becomes that invalid list (the prior list was empty), contradicting the
claimed failure transition. -/
theorem fetch_stores_incomplete_records :
    incompleteComment.isComplete = false ∧
    (AppStore.fetchComments initialAppState (.success [incompleteComment])).2.error = none ∧
    (AppStore.fetchComments initialAppState (.success [incompleteComment])).2.comments
      = [incompleteComment] ∧
    (AppStore.fetchComments initialAppState (.success [incompleteComment])).2.comments
      ≠ initialAppState.comments := by
  refine ⟨rfl, rfl, rfl, ?_⟩
  decide

/-- C9 amended: fetchComments performs no runtime validation of the parsed
records: even when records are missing required Comment fields, the array
is stored as-is on the success path (comments = parsed records, loading =
false, error = null); extra fields are simply carried along inside the
stored records. -/
theorem fetch_success_skips_validation (s : AppState) (data : List RawComment)
    (_h : ∃ r ∈ data, r.isComplete = false) :
    (AppStore.fetchComments s (.success data)).2.comments = data ∧
    (AppStore.fetchComments s (.success data)).2.error = none ∧
    (AppStore.fetchComments s (.success data)).2.loading = false :=
  ⟨rfl, rfl, rfl⟩

/-- Witness for C9 amended: the all-fields-missing record is stored with
error still null. -/
theorem fetch_success_skips_validation_witness :
    (AppStore.fetchComments loadingAppState (.success [incompleteComment])).2.comments
      = [incompleteComment] ∧
    (AppStore.fetchComments loadingAppState (.success [incompleteComment])).2.error = none ∧
    (AppStore.fetchComments loadingAppState (.success [incompleteComment])).2.loading = false :=
  fetch_success_skips_validation loadingAppState [incompleteComment]
    ⟨incompleteComment, by simp, rfl⟩

/-- C4: the gate renders the fallback immediately after construction for
every value of the container's isHydrated flag; it renders the children
only when its one-tick flag is set and the container is hydrated; and
after the scheduling tick it renders the children exactly when the
container is hydrated. -/
theorem hydration_gate_anti_flash :
    (∀ storeHydrated : Bool,
      HydrationBoundary.render HydrationBoundary.init storeHydrated
        = HydrationBoundary.RenderOut.fallback) ∧
    (∀ (g : GateState) (b : Bool),
      HydrationBoundary.render g b = HydrationBoundary.RenderOut.children →
        g.isHydrated = true ∧ b = true) ∧
    (∀ b : Bool,
      HydrationBoundary.render (HydrationBoundary.tick HydrationBoundary.init) b
        = HydrationBoundary.RenderOut.children ↔ b = true) := by
  refine ⟨?_, ?_, ?_⟩
  · intro b
    cases b <;> rfl
  · intro g b h
    cases g with
    | mk gi => cases gi <;> cases b <;> simp_all [HydrationBoundary.render]
  · intro b
    cases b <;> simp [HydrationBoundary.render, HydrationBoundary.tick, HydrationBoundary.init]

/-- Witness for C4: after the tick with a hydrated container the gate
renders the children, and the reverse direction recovers that both the
tick flag and the container flag are true. -/
theorem hydration_gate_anti_flash_witness :
    HydrationBoundary.render (HydrationBoundary.tick HydrationBoundary.init) true
      = HydrationBoundary.RenderOut.children ∧
    ((HydrationBoundary.tick HydrationBoundary.init).isHydrated = true ∧ true = true) := by
  have h3 := (hydration_gate_anti_flash.2.2 true).mpr rfl
  exact ⟨h3, hydration_gate_anti_flash.2.1 (HydrationBoundary.tick HydrationBoundary.init) true h3⟩

/-- Helper: the restore cycle never changes isHydrated, whatever the slot
holds, because the post-rehydration callback the middleware obtains from
the store's options performs no store effect. -/
theorem restoreCycle_isHydrated (slot : SlotContent) (s : AppState) :
    (restoreCycle slot s).isHydrated = s.isHydrated := by
  cases slot <;> rfl

/-- C1 evaluation at the failing input: with malformed text in the durable
slot, the restore cycle completes normally (nothing is thrown to the
caller) with the default values count = 0 and comments = [] — but
isHydrated is still false when the cycle finishes, and since the
post-rehydration callback only returns the inner completion handler
(CbRet.func) instead of running it, and that inner handler performs no
store effect on the error path either, no later step ever calls
setHydrated: isHydrated never becomes true. -/
theorem restore_malformed_defaults_but_never_hydrated :
    restoreCycle (.malformed "definitely not json") initialAppState = initialAppState ∧
    (restoreCycle (.malformed "definitely not json") initialAppState).count = 0 ∧
    (restoreCycle (.malformed "definitely not json") initialAppState).comments = [] ∧
    (restoreCycle (.malformed "definitely not json") initialAppState).isHydrated = false ∧
    (onRehydratePost none (some "SyntaxError: unexpected token")).2 = CbRet.func ∧
    (onRehydratePost none (some "SyntaxError: unexpected token")).1 = StoreEffect.noop ∧
    (onRehydrateInner none (some "SyntaxError: unexpected token")).1 = StoreEffect.noop :=
  ⟨rfl, rfl, rfl, rfl, rfl, rfl, rfl⟩
